import Mathlib

/-!
Verification of the goAI_talk football Q&A bot.

The repository combines a third-party football-data API, a SQLite cache and
an LLM completion API behind a CLI and a small web server.  The client-side
JavaScript (scripts.js, the chat widget) is embedded directly from the
source.  The server-side core (Refresh Coordinator, Context Builder,
Answer Service) is not present in the provided sources, so those components
are modelled from the specification, with external collaborators passed in
as explicit arguments so that every operation is a pure function.
-/

namespace GoAITalk

/-! ## Data model (spec section 3) -/

/-- Modelled from the spec: a Goal sub-record of a Match — minute, scoring
player name and scoring team name.  The same record shape is used by the
client-side sample data in scripts.js. -/
structure Goal where
  minute : Nat
  player : String
  team : String
deriving DecidableEq, Repr

/-- Modelled from the spec: one fixture on a given date, with identifier,
date, league, the two team names, scores (absent if not yet played), venue,
status and the ordered sequence of goals. -/
structure Match where
  id : Nat
  date : String
  league : String
  homeTeam : String
  awayTeam : String
  homeScore : Option Nat
  awayScore : Option Nat
  venue : String
  status : String
  goals : List Goal
deriving DecidableEq, Repr

/-- Modelled from the spec: the Local Store — Match rows keyed by date plus
a CacheState last-refreshed timestamp per tracked date. -/
structure Store where
  matchRows : String → List Match
  lastRefreshed : String → Option Nat

/-- A store with no rows and no recorded refresh, used as a concrete
starting state. -/
def emptyStore : Store :=
  { matchRows := fun _ => [], lastRefreshed := fun _ => none }

/-! ## Refresh Coordinator (spec section 4.1)

The external Football Data Source is modelled by the value it would return
if called on this request: `some rows` for a successful fetch, `none` for a
network or parse failure.  `fetchCalls` counts how many external fetches
the call performed (0 or 1). -/

/-- Modelled from the spec: the freshness check — the cached data for a
date is stale when no refresh is recorded or when the recorded refresh is
older than `maxAgeSeconds`. -/
def isStale (now maxAgeSeconds : Nat) (last : Option Nat) : Bool :=
  match last with
  | none => true
  | some t => decide (maxAgeSeconds < now - t)

/-- Modelled from the spec: result of `ensureFresh` — the current Match
rows for the date plus a flag telling whether they came from the
pre-existing cache rather than a live fetch this call. -/
structure FreshnessResult where
  matchRows : List Match
  fromCache : Bool
deriving Repr

/-- Outcome of one `ensureFresh` call: the result handed to the caller,
the store after the call, and how many external fetches were performed. -/
structure RefreshOutcome where
  result : FreshnessResult
  store : Store
  fetchCalls : Nat

/-- Modelled from the spec: `ensureFresh(date, maxAgeSeconds)` of the
Refresh Coordinator, whose implementation (app/api.py and
app/database_manager/database.py) is not among the provided sources.
Reads CacheState.lastRefreshed for the date; if absent or older than
`maxAgeSeconds`, calls the External Football Data Source, and on success
atomically replaces all Match rows for the date and records the refresh
time; on failure falls back to whatever is stored.  The external source is
the `fetchResult` argument. -/
def ensureFresh (fetchResult : Option (List Match)) (now : Nat)
    (date : String) (maxAgeSeconds : Nat) (st : Store) : RefreshOutcome :=
  if isStale now maxAgeSeconds (st.lastRefreshed date) then
    match fetchResult with
    | some rows =>
        { result := { matchRows := rows, fromCache := false }
          store :=
            { matchRows := fun d => if d = date then rows else st.matchRows d
              lastRefreshed := fun d => if d = date then some now else st.lastRefreshed d }
          fetchCalls := 1 }
    | none =>
        { result := { matchRows := st.matchRows date, fromCache := true }
          store := st
          fetchCalls := 1 }
  else
    { result := { matchRows := st.matchRows date, fromCache := true }
      store := st
      fetchCalls := 0 }

/-! ## Context Builder (spec section 4.2) -/

/-- Modelled from the spec: the configured maximum number of matches kept
in the context (the repository README documents `max_results: 10` in
config.json). -/
def maxContextMatches : Nat := 10

/-- Rendering of a possibly-absent score. -/
def scoreText : Option Nat → String
  | none => "-"
  | some n => toString n

/-- Modelled from the spec: the nested listing of one goal with minute,
scorer and team. -/
def goalLine (g : Goal) : String :=
  "    " ++ toString g.minute ++ " min: " ++ g.player ++ " for " ++ g.team

/-- Modelled from the spec: one line per match with league, teams, score
and venue, followed, if present, by the nested listing of goals. -/
def matchBlock (m : Match) : String :=
  m.league ++ ": " ++ m.homeTeam ++ " " ++ scoreText m.homeScore ++ " - "
    ++ scoreText m.awayScore ++ " " ++ m.awayTeam ++ " at " ++ m.venue
    ++ String.join (m.goals.map (fun g => "\n" ++ goalLine g))

/-- Modelled from the spec: the string returned for an empty match list,
indicating that no matches are available. -/
def noMatchesMessage : String :=
  "No match data is available for the requested date."

/-- Modelled from the spec: the note appended when the input list was
truncated to the configured maximum. -/
def truncationNote (total : Nat) : String :=
  "Showing only the first " ++ toString maxContextMatches ++ " of "
    ++ toString total ++ " matches."

/-- The per-match blocks kept in the context: one for each match of the
input, truncated to the configured maximum. -/
def contextBlocks (ms : List Match) : List String :=
  (ms.take maxContextMatches).map matchBlock

/-- Modelled from the spec: `buildContext(matches)` of the Context
Builder, whose implementation (app/llm.py) is not among the provided
sources.  A pure function of its input list: formats the stored matches
into a bounded natural-language block, truncating to the configured
maximum with a note, and returns an explicit no-data message for the
empty list. -/
def buildContext (ms : List Match) : String :=
  if ms.isEmpty then noMatchesMessage
  else
    let body := String.intercalate "\n" (contextBlocks ms)
    if maxContextMatches < ms.length then
      body ++ "\n" ++ truncationNote ms.length
    else body

/-! ## Answer Service (spec section 4.3) -/

/-- Modelled from the spec: the failure modes of the External Completion
Source — timeout, auth error, rate limit. -/
inductive CompletionFailure
  | timeout
  | authError
  | rateLimit
deriving DecidableEq, Repr

/-- Modelled from the spec: a short description of each completion
failure, embedded in the sentinel answer. -/
def failureText : CompletionFailure → String
  | .timeout => "the request to the language model timed out"
  | .authError => "authentication with the language model failed"
  | .rateLimit => "the language model rate limit was exceeded"

/-- Modelled from the spec: the fixed instruction prepended to every
prompt. -/
def instructionText : String :=
  "Answer only using the supplied context. Say you do not know if the answer is not in it."

/-- Modelled from the spec: the single prompt composed of the fixed
instruction, the context and the question. -/
def composePrompt (question context : String) : String :=
  instructionText ++ "\n\nContext:\n" ++ context ++ "\n\nQuestion: " ++ question

/-- Modelled from the spec: the user-facing sentinel answer returned when
the External Completion Source fails, naming the failure. -/
def serviceUnavailableAnswer (f : CompletionFailure) : String :=
  "Sorry, I cannot answer right now because " ++ failureText f
    ++ ". Please try again later."

/-- Modelled from the spec: the explicit answer reported when no cached
data is available for the requested date. -/
def noDataAnswer : String :=
  "No match data is available for this date, so there is nothing to answer."

/-- Modelled from the spec: `answer(question, context)` of the Answer
Service, whose implementation (app/llm.py) is not among the provided
sources.  Composes the prompt, sends it to the External Completion Source
(the `complete` argument: `Except.ok` is the text response, `Except.error`
a failure), returns the raw text on success and the sentinel answer on
failure — it never raises to the Interface layer. -/
def answer (complete : String → Except CompletionFailure String)
    (question context : String) : String :=
  match complete (composePrompt question context) with
  | Except.ok text => text
  | Except.error f => serviceUnavailableAnswer f

/-! ## Request pipeline (spec sections 2, 7) -/

/-- Whitespace trimming as used by the client scripts (JavaScript
String.prototype.trim) and by the question-validity check: drop leading
and trailing whitespace characters.  Defined by structural recursion over
the character list so that concrete instances reduce in the kernel. -/
def trimChars (s : String) : String :=
  ⟨((s.data.dropWhile Char.isWhitespace).reverse.dropWhile Char.isWhitespace).reverse⟩

/-- Modelled from the spec: the message shown when the user question is
empty or invalid. -/
def emptyQuestionAnswer : String := "Please enter a question."

/-- Outcome of handling one user request: the rendered answer, the store
after the request, and how many calls were made to each external source. -/
structure RequestOutcome where
  answerText : String
  store : Store
  footballCalls : Nat
  completionCalls : Nat

/-- Modelled from the spec: the synchronous request chain Interface →
Refresh Coordinator → Context Builder → Answer Service, whose
implementation (app/web_interface/web.py and app/cli_interface/cli.py) is
not among the provided sources.  An empty or invalid question is rejected
before any network call is attempted; otherwise the chain runs once and
calls the completion source exactly once. -/
def handleQuestion (fetchResult : Option (List Match))
    (complete : String → Except CompletionFailure String)
    (now : Nat) (date : String) (maxAgeSeconds : Nat)
    (st : Store) (question : String) : RequestOutcome :=
  if trimChars question = "" then
    { answerText := emptyQuestionAnswer, store := st
      footballCalls := 0, completionCalls := 0 }
  else
    let o := ensureFresh fetchResult now date maxAgeSeconds st
    let ctx := buildContext o.result.matchRows
    { answerText := answer complete question ctx
      store := o.store
      footballCalls := o.fetchCalls
      completionCalls := 1 }

/-! ## Client-side scripts, embedded from the sources

`submitRecent` embeds the questionForm submit handler of
src/static/js/scripts.js (lines 90-97), `winnerClass` and
`createMatchCard` embed the match-card creation function of the same file
(lines 152-203), and `sendMessage` embeds the chat widget handler of
src/unnamed/part_000 (lines 1-18). -/

/-- The recent-questions update performed by the questionForm submit
handler: trim the input value; when the trimmed question is non-empty and
not already in the list, push it to the front and keep at most the first
five entries; otherwise leave the list as it is. -/
def submitRecent (recentQs : List String) (value : String) : List String :=
  let question := trimChars value
  if question ≠ "" ∧ question ∉ recentQs then
    (question :: recentQs).take 5
  else recentQs

/-- The match record used by the client script (sample data and
createMatchCard): league, date, team names, numeric scores and the goal
list. -/
structure JsMatch where
  league : String
  date : String
  home_team : String
  away_team : String
  home_score : Nat
  away_score : Nat
  goals : List Goal
deriving DecidableEq, Repr

/-- The winner CSS class computed inside createMatchCard from the two
scores. -/
def winnerClass (home_score away_score : Nat) : String :=
  if home_score > away_score then "winner-home"
  else if away_score > home_score then "winner-away"
  else "match-draw"

/-- The parts of the DOM card produced by createMatchCard that carry
data: the card class, the league stored in the dataset, and the class of
the match-teams block, which includes the winner class. -/
structure MatchCard where
  className : String
  datasetLeague : String
  teamsClass : String
deriving DecidableEq, Repr

/-- createMatchCard of src/static/js/scripts.js: builds a card whose
match-teams block carries the winner class computed from the scores. -/
def createMatchCard (m : JsMatch) : MatchCard :=
  { className := "match-card animate__animated animate__fadeIn"
    datasetLeague := m.league
    teamsClass := "match-teams " ++ winnerClass m.home_score m.away_score }

/-- The state acted on by sendMessage: the list of chat message texts
shown in the chatMessages element, and the value of the messageInput
field. -/
structure ChatState where
  chatMessages : List String
  inputValue : String
deriving DecidableEq, Repr

/-- sendMessage of src/unnamed/part_000: trim the input value; when the
trimmed message is non-empty, append one message element holding the
trimmed text and clear the input; otherwise do nothing. -/
def sendMessage (st : ChatState) : ChatState :=
  let message := trimChars st.inputValue
  if message ≠ "" then
    { chatMessages := st.chatMessages ++ [message], inputValue := "" }
  else st

/-! ## Shared helper lemmas -/

/-- An `ensureFresh` call on fresh cached data serves the stored rows,
changes nothing and performs no fetch. -/
theorem ensureFresh_of_not_stale (fetchResult : Option (List Match))
    (now : Nat) (date : String) (maxAgeSeconds : Nat) (st : Store)
    (h : isStale now maxAgeSeconds (st.lastRefreshed date) = false) :
    ensureFresh fetchResult now date maxAgeSeconds st
      = { result := { matchRows := st.matchRows date, fromCache := true }
          store := st, fetchCalls := 0 } := by
  unfold ensureFresh
  rw [if_neg (by simp [h])]

/-- An `ensureFresh` call on stale data with a successful fetch performs
one fetch, replaces the rows for the date and records the refresh time. -/
theorem ensureFresh_of_stale_success (rows : List Match)
    (now : Nat) (date : String) (maxAgeSeconds : Nat) (st : Store)
    (h : isStale now maxAgeSeconds (st.lastRefreshed date) = true) :
    ensureFresh (some rows) now date maxAgeSeconds st
      = { result := { matchRows := rows, fromCache := false }
          store :=
            { matchRows := fun d => if d = date then rows else st.matchRows d
              lastRefreshed := fun d => if d = date then some now else st.lastRefreshed d }
          fetchCalls := 1 } := by
  unfold ensureFresh
  rw [if_pos h]

/-! ## Claim theorems -/

/-- C2: if the external fetch performed by `ensureFresh` fails, the Local
Store after the call is exactly the store before the call; in particular
the Match rows for the requested date are unchanged (all-or-nothing
replace, a failed refresh never deletes or partially overwrites prior
data). -/
theorem ensureFresh_failure_preserves_rows
    (st : Store) (now : Nat) (date : String) (maxAgeSeconds : Nat) :
    (ensureFresh none now date maxAgeSeconds st).store.matchRows date
        = st.matchRows date
    ∧ (ensureFresh none now date maxAgeSeconds st).store = st := by
  unfold ensureFresh
  split <;> exact ⟨rfl, rfl⟩

/-- C5: `buildContext` is deterministic — it is a pure function of the
input list, so two calls on lists that are equal by value return identical
output strings. -/
theorem buildContext_deterministic (ms1 ms2 : List Match) (h : ms1 = ms2) :
    buildContext ms1 = buildContext ms2 := by
  rw [h]

/-- Witness for C5 at a concrete input. -/
theorem buildContext_deterministic_witness :
    buildContext [] = buildContext [] :=
  buildContext_deterministic [] [] rfl

/-- C6: `buildContext` applied to the empty list returns the explicit
no-matches message, which is not the empty string. -/
theorem buildContext_empty_no_matches :
    buildContext [] = noMatchesMessage ∧ buildContext [] ≠ "" := by
  refine ⟨rfl, ?_⟩
  decide

/-- A concrete finished match, taken from the sample data embedded in
scripts.js (Manchester United 2 - 1 Liverpool). -/
def sampleMatch : Match :=
  { id := 1001, date := "2023-05-15", league := "Premier League"
    homeTeam := "Manchester United", awayTeam := "Liverpool"
    homeScore := some 2, awayScore := some 1
    venue := "Old Trafford", status := "finished"
    goals := [⟨23, "Bruno Fernandes", "Manchester United"⟩,
              ⟨45, "Marcus Rashford", "Manchester United"⟩,
              ⟨78, "Mohamed Salah", "Liverpool"⟩] }

/-- C1: calling `ensureFresh` twice for the same date — the first time on
stale data with a successful fetch, the second time while the cached data
is still younger than `maxAgeSeconds` — performs exactly one external
fetch across the two calls, and the second call reports `fromCache = true`
together with the stored Match rows for the date. -/
theorem ensureFresh_twice_single_fetch (st : Store) (date : String)
    (maxAgeSeconds t0 t1 : Nat) (rows : List Match)
    (fetch2 : Option (List Match))
    (hstale : isStale t0 maxAgeSeconds (st.lastRefreshed date) = true)
    (hyoung : t1 - t0 < maxAgeSeconds) :
    (ensureFresh (some rows) t0 date maxAgeSeconds st).fetchCalls
      + (ensureFresh fetch2 t1 date maxAgeSeconds
          (ensureFresh (some rows) t0 date maxAgeSeconds st).store).fetchCalls
      = 1
    ∧ (ensureFresh fetch2 t1 date maxAgeSeconds
        (ensureFresh (some rows) t0 date maxAgeSeconds st).store).result.fromCache
      = true
    ∧ (ensureFresh fetch2 t1 date maxAgeSeconds
        (ensureFresh (some rows) t0 date maxAgeSeconds st).store).result.matchRows
      = (ensureFresh (some rows) t0 date maxAgeSeconds st).store.matchRows date := by
  have hlr : (ensureFresh (some rows) t0 date maxAgeSeconds st).store.lastRefreshed date
      = some t0 := by
    rw [ensureFresh_of_stale_success rows t0 date maxAgeSeconds st hstale]
    simp
  have hfresh : isStale t1 maxAgeSeconds
      ((ensureFresh (some rows) t0 date maxAgeSeconds st).store.lastRefreshed date)
      = false := by
    rw [hlr]
    unfold isStale
    simp only [decide_eq_false_iff_not]
    omega
  have hfc : (ensureFresh (some rows) t0 date maxAgeSeconds st).fetchCalls = 1 := by
    rw [ensureFresh_of_stale_success rows t0 date maxAgeSeconds st hstale]
  rw [ensureFresh_of_not_stale fetch2 t1 date maxAgeSeconds _ hfresh]
  refine ⟨?_, rfl, rfl⟩
  rw [hfc]
  rfl

/-- Witness for C1: cold store, first refresh at time 1000 succeeds, the
second call at time 2000 with a one-hour threshold serves from cache. -/
theorem ensureFresh_twice_single_fetch_witness :
    isStale 1000 3600 (emptyStore.lastRefreshed "2025-04-01") = true
    ∧ (2000 : Nat) - 1000 < 3600
    ∧ ((ensureFresh (some [sampleMatch]) 1000 "2025-04-01" 3600 emptyStore).fetchCalls
        + (ensureFresh none 2000 "2025-04-01" 3600
            (ensureFresh (some [sampleMatch]) 1000 "2025-04-01" 3600 emptyStore).store).fetchCalls
        = 1
      ∧ (ensureFresh none 2000 "2025-04-01" 3600
          (ensureFresh (some [sampleMatch]) 1000 "2025-04-01" 3600 emptyStore).store).result.fromCache
        = true
      ∧ (ensureFresh none 2000 "2025-04-01" 3600
          (ensureFresh (some [sampleMatch]) 1000 "2025-04-01" 3600 emptyStore).store).result.matchRows
        = (ensureFresh (some [sampleMatch]) 1000 "2025-04-01" 3600 emptyStore).store.matchRows
            "2025-04-01") :=
  ⟨rfl, by decide,
    ensureFresh_twice_single_fetch emptyStore "2025-04-01" 3600 1000 2000
      [sampleMatch] none rfl (by decide)⟩

/-- C3: if the External Completion Source fails (timeout, auth error or
rate limit), `answer` returns the user-facing sentinel string for that
failure instead of raising; the sentinel is non-empty and distinct from
the no-data answer, so the service-unavailable case stays distinguishable
from the no-data case. -/
theorem answer_failure_sentinel (f : CompletionFailure) (q c : String) :
    answer (fun _ => Except.error f) q c = serviceUnavailableAnswer f
    ∧ serviceUnavailableAnswer f ≠ ""
    ∧ serviceUnavailableAnswer f ≠ noDataAnswer := by
  refine ⟨rfl, ?_, ?_⟩ <;> cases f <;> decide

/-- C4: for an input list longer than the configured maximum,
`buildContext` keeps at most `maxContextMatches` per-match blocks
(truncating the input to the maximum) and appends the truncation note to
its output. -/
theorem buildContext_truncates (ms : List Match)
    (h : maxContextMatches < ms.length) :
    (contextBlocks ms).length ≤ maxContextMatches
    ∧ buildContext ms
      = String.intercalate "\n" (contextBlocks ms) ++ "\n"
        ++ truncationNote ms.length := by
  constructor
  · simp only [contextBlocks, List.length_map, List.length_take]
    exact min_le_left _ _
  · have hne : ms.isEmpty = false := by
      cases ms with
      | nil => simp [maxContextMatches] at h
      | cons a as => rfl
    unfold buildContext
    rw [hne]
    simp only [Bool.false_eq_true, if_false]
    rw [if_pos h]

/-- Witness for C4 at a list of eleven matches. -/
theorem buildContext_truncates_witness :
    maxContextMatches < (List.replicate 11 sampleMatch).length
    ∧ ((contextBlocks (List.replicate 11 sampleMatch)).length ≤ maxContextMatches
      ∧ buildContext (List.replicate 11 sampleMatch)
        = String.intercalate "\n" (contextBlocks (List.replicate 11 sampleMatch)) ++ "\n"
          ++ truncationNote (List.replicate 11 sampleMatch).length) :=
  ⟨by decide, buildContext_truncates (List.replicate 11 sampleMatch) (by decide)⟩

/-- C7: a request whose question is empty (up to whitespace) is rejected
before any network call: the handler contacts neither the External
Football Data Source nor the External Completion Source, and leaves the
store untouched. -/
theorem handleQuestion_empty_no_network (fetchResult : Option (List Match))
    (complete : String → Except CompletionFailure String)
    (now : Nat) (date : String) (maxAgeSeconds : Nat) (st : Store)
    (question : String) (h : trimChars question = "") :
    (handleQuestion fetchResult complete now date maxAgeSeconds st question).footballCalls = 0
    ∧ (handleQuestion fetchResult complete now date maxAgeSeconds st question).completionCalls = 0
    ∧ (handleQuestion fetchResult complete now date maxAgeSeconds st question).store = st := by
  unfold handleQuestion
  rw [if_pos h]
  exact ⟨rfl, rfl, rfl⟩

/-- Witness for C7 at a whitespace-only question. -/
theorem handleQuestion_empty_no_network_witness :
    trimChars "   " = ""
    ∧ ((handleQuestion none Except.ok 0 "2025-04-01" 3600 emptyStore "   ").footballCalls = 0
      ∧ (handleQuestion none Except.ok 0 "2025-04-01" 3600 emptyStore "   ").completionCalls = 0
      ∧ (handleQuestion none Except.ok 0 "2025-04-01" 3600 emptyStore "   ").store = emptyStore) :=
  ⟨by decide,
    handleQuestion_empty_no_network none Except.ok 0 "2025-04-01" 3600 emptyStore "   " (by decide)⟩

/-- C8: the recent-questions list of the questionForm submit handler keeps
its invariant across submissions — starting from a list with at most 5
entries and no duplicates, after a submission it still has at most 5
entries and no duplicates, and when the trimmed question is non-empty and
not already present it is the first (most recent) entry. -/
theorem submitRecent_invariant (l : List String) (v : String)
    (hlen : l.length ≤ 5) (hnd : l.Nodup) :
    (submitRecent l v).length ≤ 5 ∧ (submitRecent l v).Nodup
    ∧ (trimChars v ≠ "" → trimChars v ∉ l →
        (submitRecent l v).head? = some (trimChars v)) := by
  simp only [submitRecent]
  split
  case isTrue h =>
    refine ⟨?_, ?_, fun _ _ => rfl⟩
    · rw [List.length_take]
      exact min_le_left _ _
    · exact (List.take_sublist 5 _).nodup (List.nodup_cons.mpr ⟨h.2, hnd⟩)
  case isFalse h =>
    exact ⟨hlen, hnd, fun h1 h2 => absurd ⟨h1, h2⟩ h⟩

/-- Witness for C8 at a two-entry list and a fresh padded question. -/
theorem submitRecent_invariant_witness :
    (submitRecent ["a", "b"] " c ").length ≤ 5
    ∧ (submitRecent ["a", "b"] " c ").Nodup
    ∧ (submitRecent ["a", "b"] " c ").head? = some (trimChars " c ") :=
  ⟨(submitRecent_invariant ["a", "b"] " c " (by decide) (by decide)).1,
   (submitRecent_invariant ["a", "b"] " c " (by decide) (by decide)).2.1,
   (submitRecent_invariant ["a", "b"] " c " (by decide) (by decide)).2.2
     (by decide) (by decide)⟩

/-- C9: the card produced by createMatchCard carries the class
winner-home exactly when the home score is strictly greater, winner-away
exactly when the away score is strictly greater, and match-draw exactly
when the scores are equal — one and only one of the three. -/
theorem createMatchCard_winner_class (m : JsMatch) :
    ((createMatchCard m).teamsClass = "match-teams winner-home"
        ↔ m.home_score > m.away_score)
    ∧ ((createMatchCard m).teamsClass = "match-teams winner-away"
        ↔ m.away_score > m.home_score)
    ∧ ((createMatchCard m).teamsClass = "match-teams match-draw"
        ↔ m.home_score = m.away_score) := by
  rcases Nat.lt_trichotomy m.home_score m.away_score with h | h | h
  · have ht : (createMatchCard m).teamsClass = "match-teams winner-away" := by
      show "match-teams " ++ winnerClass m.home_score m.away_score = _
      unfold winnerClass
      rw [if_neg (by omega), if_pos h]
      decide
    rw [ht]
    exact ⟨⟨fun hx => absurd hx (by decide), fun hx => absurd hx (by omega)⟩,
           ⟨fun _ => h, fun _ => rfl⟩,
           ⟨fun hx => absurd hx (by decide), fun hx => absurd hx (by omega)⟩⟩
  · have ht : (createMatchCard m).teamsClass = "match-teams match-draw" := by
      show "match-teams " ++ winnerClass m.home_score m.away_score = _
      unfold winnerClass
      rw [if_neg (by omega), if_neg (by omega)]
      decide
    rw [ht]
    exact ⟨⟨fun hx => absurd hx (by decide), fun hx => absurd hx (by omega)⟩,
           ⟨fun hx => absurd hx (by decide), fun hx => absurd hx (by omega)⟩,
           ⟨fun _ => h, fun _ => rfl⟩⟩
  · have ht : (createMatchCard m).teamsClass = "match-teams winner-home" := by
      show "match-teams " ++ winnerClass m.home_score m.away_score = _
      unfold winnerClass
      rw [if_pos h]
      decide
    rw [ht]
    exact ⟨⟨fun _ => h, fun _ => rfl⟩,
           ⟨fun hx => absurd hx (by decide), fun hx => absurd hx (by omega)⟩,
           ⟨fun hx => absurd hx (by decide), fun hx => absurd hx (by omega)⟩⟩

/-- C10: sendMessage leaves the chat-message list and the input field
unchanged when the trimmed input is empty; when it is non-empty it
appends exactly one message holding the trimmed text and clears the
input. -/
theorem sendMessage_frame (st : ChatState) :
    (trimChars st.inputValue = "" → sendMessage st = st)
    ∧ (trimChars st.inputValue ≠ "" →
        (sendMessage st).chatMessages
          = st.chatMessages ++ [trimChars st.inputValue]
        ∧ (sendMessage st).inputValue = "") := by
  constructor
  · intro h
    simp only [sendMessage]
    rw [if_neg (by simp [h])]
  · intro h
    simp only [sendMessage]
    rw [if_pos h]
    exact ⟨rfl, rfl⟩

/-- Witness for C10: a whitespace-only input is a no-op; a padded message
is appended trimmed and the input cleared. -/
theorem sendMessage_frame_witness :
    trimChars "  " = ""
    ∧ sendMessage ⟨["hi"], "  "⟩ = ⟨["hi"], "  "⟩
    ∧ trimChars " hello " ≠ ""
    ∧ (sendMessage ⟨[], " hello "⟩).chatMessages
        = (⟨[], " hello "⟩ : ChatState).chatMessages
          ++ [trimChars (⟨[], " hello "⟩ : ChatState).inputValue]
    ∧ (sendMessage ⟨[], " hello "⟩).inputValue = "" :=
  ⟨by decide,
   (sendMessage_frame ⟨["hi"], "  "⟩).1 (by decide),
   by decide,
   ((sendMessage_frame ⟨[], " hello "⟩).2 (by decide)).1,
   ((sendMessage_frame ⟨[], " hello "⟩).2 (by decide)).2⟩

end GoAITalk
